import Mathlib

/-!
Shallow embedding of the QNX home-safety-system core
(`src/central_analyzer.c`, `src/sensors/temperature_sensor.h`,
`src/sensors/ultrasonic_sensor.h`, `src/msg_def.h`).

Machine integers are modelled as `Nat`/`Int` with explicit `% 2^w`
where the C code can truncate; fallible C functions that return
`0`/`-1` are modelled as functions returning their result code
together with the surviving caller state.  Outbound QNX message
sends (`MsgSend`, `MsgSendPulse`, `printf`) carry no state and are
modelled as the list of alert events produced, plus an abstract
event trace where the order of operations matters.
-/

namespace HomeSafety

/-! ## Constants from `msg_def.h` -/

def ALERT_LEVEL_INFO : Nat := 0x00
def ALERT_LEVEL_WARNING : Nat := 0x01
def ALERT_LEVEL_CRITICAL : Nat := 0x02

def ALERT_TYPE_TEMP_HIGH : Nat := 0x01
def ALERT_TYPE_TEMP_LOW : Nat := 0x02
def ALERT_TYPE_GAS_DETECTED : Nat := 0x03
def ALERT_TYPE_MOTION : Nat := 0x04
def ALERT_TYPE_DOOR_CLOSED : Nat := 0x05
def ALERT_TYPE_DOOR_OPEN : Nat := 0x06

/-- Structure `threshold_config_t` from `msg_def.h`. -/
structure threshold_config_t where
  temp_high_threshold : Int
  temp_low_threshold : Int
  humidity_high_threshold : Int
  humidity_low_threshold : Int
  door_closed_dist_cm : Nat
deriving Repr, DecidableEq

/-- The static `thresholds` value of `central_analyzer.c`. -/
def thresholds : threshold_config_t :=
  { temp_high_threshold := 30
    temp_low_threshold := 15
    humidity_high_threshold := 80
    humidity_low_threshold := 20
    door_closed_dist_cm := 10 }

/-- Structure `shared_sensor_data_t` from `central_analyzer.c` (the mutex-guarded
global `g_sensor_data`).  `uint8_t` flags are modelled as `Bool`,
`alert_level` keeps its numeric encoding. -/
structure shared_sensor_data_t where
  temperature : Int
  humidity : Int
  temp_sensor_valid : Bool
  gas_detected : Bool
  gas_sensor_valid : Bool
  motion_detected : Bool
  motion_sensor_valid : Bool
  distance_cm : Nat
  door_closed : Bool
  ultrasonic_valid : Bool
  alert_level : Nat
deriving Repr, DecidableEq

/-- The initialiser `g_sensor_data = \x7b0\x7d`: the zero-initialised shared snapshot. -/
def g_sensor_data_init : shared_sensor_data_t :=
  { temperature := 0, humidity := 0, temp_sensor_valid := false
    gas_detected := false, gas_sensor_valid := false
    motion_detected := false, motion_sensor_valid := false
    distance_cm := 0, door_closed := false, ultrasonic_valid := false
    alert_level := 0 }

/-- The `static` locals latched inside `check_thresholds_and_alert`
(`last_alert_level`, `last_motion`, `last_door_state`), made explicit
state so the evaluation is a pure function. -/
structure alert_latches_t where
  last_alert_level : Nat
  last_motion : Bool
  last_door_state : Bool
deriving Repr, DecidableEq

/-- Initial values of the static latches (`ALERT_LEVEL_INFO`, `0`, `0`). -/
def alert_latches_init : alert_latches_t :=
  { last_alert_level := ALERT_LEVEL_INFO, last_motion := false, last_door_state := false }

/-- One alert event as assembled by `send_alert(alert_type, alert_level,
sensor_value, description)`. -/
structure AlertEvent where
  alert_type : Nat
  alert_level : Nat
  sensor_value : Int
  description : String
deriving Repr, DecidableEq

/-- Function `check_thresholds_and_alert` from `central_analyzer.c`
(lines 344-410), as a pure function of the snapshot and the latched
static locals.  It returns the list of alerts sent (in program order),
the updated snapshot (the function writes `data->alert_level`), and the
updated latches.  The `send_pulse` calls carry no analyzer state and
are not part of the returned data. -/
def check_thresholds_and_alert (cfg : threshold_config_t)
    (data : shared_sensor_data_t) (latch : alert_latches_t) :
    List AlertEvent × shared_sensor_data_t × alert_latches_t :=
  let current0 := ALERT_LEVEL_INFO
  -- Check temperature thresholds
  let (tempAlerts, current1) :=
    if data.temp_sensor_valid then
      if data.temperature > cfg.temp_high_threshold then
        ([⟨ALERT_TYPE_TEMP_HIGH, ALERT_LEVEL_WARNING, data.temperature,
            "Temperature above threshold"⟩], ALERT_LEVEL_WARNING)
      else if data.temperature < cfg.temp_low_threshold then
        ([⟨ALERT_TYPE_TEMP_LOW, ALERT_LEVEL_WARNING, data.temperature,
            "Temperature below threshold"⟩], ALERT_LEVEL_WARNING)
      else ([], current0)
    else ([], current0)
  -- Check gas sensor
  let (gasAlerts, current2) :=
    if data.gas_sensor_valid && data.gas_detected then
      ([⟨ALERT_TYPE_GAS_DETECTED, ALERT_LEVEL_CRITICAL, 1,
          "Gas detected - potential hazard!"⟩], ALERT_LEVEL_CRITICAL)
    else ([], current1)
  -- Check motion sensor (edge-suppression commented out in the source:
  -- the alert fires every tick while detected; `last_motion` is still
  -- latched inside the branch)
  let (motionAlerts, lastMotion, current3) :=
    if data.motion_sensor_valid && data.motion_detected then
      ([⟨ALERT_TYPE_MOTION, ALERT_LEVEL_INFO, 1, "Motion detected"⟩],
       data.motion_detected,
       if current2 < ALERT_LEVEL_INFO then ALERT_LEVEL_INFO else current2)
    else ([], latch.last_motion, current2)
  -- Check door status (edge-triggered against `last_door_state`)
  let (doorAlerts, lastDoor) :=
    if data.ultrasonic_valid then
      (if data.door_closed && !latch.last_door_state then
        [⟨ALERT_TYPE_DOOR_CLOSED, ALERT_LEVEL_INFO, (data.distance_cm : Int),
            "Door closed"⟩]
       else if !data.door_closed && latch.last_door_state then
        [⟨ALERT_TYPE_DOOR_OPEN, ALERT_LEVEL_INFO, (data.distance_cm : Int),
            "Door opened"⟩]
       else [],
       data.door_closed)
    else ([], latch.last_door_state)
  (tempAlerts ++ gasAlerts ++ motionAlerts ++ doorAlerts,
   { data with alert_level := current3 },
   { last_alert_level := current3, last_motion := lastMotion,
     last_door_state := lastDoor })

/-- Structure `sensor_data_msg_t` from `msg_def.h`, as filled in by
`aggregator_thread` (the `msg_type` and wall-clock `timestamp` fields
carry no analyzer state and are omitted). -/
structure sensor_data_msg_t where
  temperature : Int
  humidity : Int
  temp_sensor_valid : Bool
  gas_detected : Bool
  gas_sensor_valid : Bool
  motion_detected : Bool
  motion_sensor_valid : Bool
  distance_cm : Nat
  door_closed : Bool
  ultrasonic_valid : Bool
  alert_level : Nat
  sequence_num : Nat
deriving Repr, DecidableEq

/-- One iteration of the `aggregator_thread` loop body
(`central_analyzer.c` lines 286-338), minus the sleep and the external
`MsgSend`: it copies the shared snapshot field by field into the
outbound message (including `alert_level` and the post-incremented
`g_sequence_num`), and only afterwards calls
`check_thresholds_and_alert(&g_sensor_data)`, which rewrites
`g_sensor_data.alert_level`.  Returns the outbound message, the alerts
sent this tick, and the updated shared state, sequence counter and
latches. -/
def aggregator_tick (cfg : threshold_config_t)
    (shared : shared_sensor_data_t) (seq : Nat) (latch : alert_latches_t) :
    sensor_data_msg_t × List AlertEvent × shared_sensor_data_t × Nat × alert_latches_t :=
  let msg : sensor_data_msg_t :=
    { temperature := shared.temperature
      humidity := shared.humidity
      temp_sensor_valid := shared.temp_sensor_valid
      gas_detected := shared.gas_detected
      gas_sensor_valid := shared.gas_sensor_valid
      motion_detected := shared.motion_detected
      motion_sensor_valid := shared.motion_sensor_valid
      distance_cm := shared.distance_cm
      door_closed := shared.door_closed
      ultrasonic_valid := shared.ultrasonic_valid
      alert_level := shared.alert_level
      sequence_num := seq }
  let (alerts, shared2, latch2) := check_thresholds_and_alert cfg shared latch
  (msg, alerts, shared2, seq + 1, latch2)

/-- Run the aggregator over a list of per-tick producer updates: before
each tick the producers' writes for that cycle are applied to the
shared snapshot, then the tick runs.  Returns the streams of outbound
messages and per-tick alert lists. -/
def aggregator_run (cfg : threshold_config_t)
    (updates : List (shared_sensor_data_t → shared_sensor_data_t))
    (shared : shared_sensor_data_t) (seq : Nat) (latch : alert_latches_t) :
    List sensor_data_msg_t × List (List AlertEvent) :=
  match updates with
  | [] => ([], [])
  | u :: rest =>
    let (msg, alerts, shared2, seq2, latch2) := aggregator_tick cfg (u shared) seq latch
    let (msgs, alertss) := aggregator_run cfg rest shared2 seq2 latch2
    (msg :: msgs, alerts :: alertss)

/-! ## Producer loop bodies -/

/-- One iteration of `temperature_sensor_thread` (`central_analyzer.c`
lines 120-142): on a successful `temperature_sensor_read` publish
temperature, humidity and validity; on failure only clear the validity
flag. -/
def temperature_producer_step (readResult : Option (Int × Int))
    (s : shared_sensor_data_t) : shared_sensor_data_t :=
  match readResult with
  | some (temp, hum) =>
      { s with temperature := temp, humidity := hum, temp_sensor_valid := true }
  | none => { s with temp_sensor_valid := false }

/-- One iteration of `gas_sensor_thread` (lines 163-184). -/
def gas_producer_step (readResult : Option Bool)
    (s : shared_sensor_data_t) : shared_sensor_data_t :=
  match readResult with
  | some gas => { s with gas_detected := gas, gas_sensor_valid := true }
  | none => { s with gas_sensor_valid := false }

/-- One iteration of `motion_sensor_thread` (lines 205-226). -/
def motion_producer_step (readResult : Option Bool)
    (s : shared_sensor_data_t) : shared_sensor_data_t :=
  match readResult with
  | some motion => { s with motion_detected := motion, motion_sensor_valid := true }
  | none => { s with motion_sensor_valid := false }

/-- One iteration of `ultrasonic_sensor_thread` (lines 247-272): on
success it derives `door_closed = (distance <= thresholds.door_closed_dist_cm)`
and publishes distance, door state and validity; on failure only the
validity flag is cleared. -/
def ultrasonic_producer_step (cfg : threshold_config_t)
    (readResult : Option Nat) (s : shared_sensor_data_t) : shared_sensor_data_t :=
  match readResult with
  | some distance =>
      { s with distance_cm := distance,
               door_closed := distance ≤ cfg.door_closed_dist_cm,
               ultrasonic_valid := true }
  | none => { s with ultrasonic_valid := false }

/-! ## Aggregator-tick event trace (order of operations) -/

/-- The externally observable steps of one `aggregator_thread` loop
iteration, in the granularity the spec speaks about: taking and
releasing `g_data_mutex`, the field-by-field copy of `g_sensor_data`
into the local `msg`, the `check_thresholds_and_alert` evaluation, and
the outbound `MsgSend`. -/
inductive AggStep where
  | lockAcquire
  | snapshotCopy
  | alertEval
  | lockRelease
  | sendSnapshot
deriving Repr, DecidableEq

/-- The straight-line order of those steps in the loop body of
`aggregator_thread` (`central_analyzer.c` lines 291-330):
`pthread_mutex_lock`; copy `g_sensor_data` into `msg`;
`check_thresholds_and_alert(&g_sensor_data)`; `pthread_mutex_unlock`;
`MsgSend` to `stats_update`. -/
def aggregator_tick_trace : List AggStep :=
  [AggStep.lockAcquire, AggStep.snapshotCopy, AggStep.alertEval,
   AggStep.lockRelease, AggStep.sendSnapshot]

/-- Modelled from the spec (section 4.5): the tick order the spec
describes, in which the lock is released after the copy-out and the
alert evaluation runs only after the release.  Used to compare the
spec's claimed ordering with `aggregator_tick_trace`. -/
def spec_tick_trace : List AggStep :=
  [AggStep.lockAcquire, AggStep.snapshotCopy, AggStep.lockRelease,
   AggStep.alertEval, AggStep.sendSnapshot]

/-! ## DHT11 single-wire decoder (`sensors/temperature_sensor.h`)

`dht_wait_while_level` busy-polls the line and returns the elapsed time
in microseconds once the level changes, or `-1` on a line-read failure
or timeout.  The hardware is abstracted as the results those waits
would deliver: an `Int` that is the measured duration when
non-negative and an error when negative. -/

/-- Function `dht_read_bit` (`temperature_sensor.h` lines 55-68): wait out the
~50µs low framing pulse, then measure the high pulse; a negative wait
result propagates as `-1`, otherwise the bit is 1 exactly when the
high phase lasted strictly more than 50µs. -/
def dht_read_bit (lowWait highWait : Int) : Int :=
  if lowWait < 0 then -1
  else if highWait < 0 then -1
  else if highWait > 50 then 1 else 0

/-- Functional update of the `uint8_t data[5]` accumulator array
(modelled as `Nat → Nat`; only indices 0-4 are ever touched). -/
def dht_upd (d : Nat → Nat) (j v : Nat) : Nat → Nat :=
  fun k => if k = j then v else d k

/-- The 40-iteration bit loop of `temperature_sensor_read` (lines
132-139) over the remaining bit indices: each iteration reads one bit,
aborts on error, and folds it into `data[i/8]` via
`data[i/8] <<= 1; data[i/8] |= bit` (on `uint8_t`, i.e. the shift
truncates mod 256, and or-ing a 0/1 bit into the even result is
addition). -/
def dht_read_bits_loop (bits : Nat → Int × Int) :
    List Nat → (Nat → Nat) → Option (Nat → Nat)
  | [], d => some d
  | i :: rest, d =>
    let b := dht_read_bit (bits i).1 (bits i).2
    if b < 0 then none
    else dht_read_bits_loop bits rest
      (dht_upd d (i / 8) ((d (i / 8) * 2) % 256 + b.toNat))

/-- Read all 40 bits into the five data bytes. -/
def dht_read_bits (bits : Nat → Int × Int) : Option (Nat → Nat) :=
  dht_read_bits_loop bits (List.range 40) (fun _ => 0)

/-- The boolean value of bit `i` as `dht_read_bit` decides it when no
error occurs: high phase strictly longer than 50µs. -/
def dht_bit_value (bits : Nat → Int × Int) (i : Nat) : Bool :=
  (bits i).2 > 50

/-- Error-free byte assembly: the same fold as `dht_read_bits_loop`
but producing the bytes directly from the boolean bit values. -/
def dht_bytes_loop (bv : Nat → Bool) : List Nat → (Nat → Nat) → (Nat → Nat)
  | [], d => d
  | i :: rest, d =>
    dht_bytes_loop bv rest
      (dht_upd d (i / 8) ((d (i / 8) * 2) % 256 + (if bv i then 1 else 0)))

/-- The five data bytes assembled from a 40-bit boolean sequence
(humidity-int, humidity-frac, temp-int, temp-frac, checksum). -/
def dht_bytes (bv : Nat → Bool) : Nat → Nat :=
  dht_bytes_loop bv (List.range 40) (fun _ => 0)

/-- The line behaviour one `temperature_sensor_read` call observes:
success of the GPIO direction/output operations of the start signal,
the results of the three handshake waits, and the per-bit wait results. -/
structure DhtEnv where
  setup_out_ok : Bool
  output_low_ok : Bool
  output_high_ok : Bool
  setup_in_ok : Bool
  wait_start : Int
  wait_low80 : Int
  wait_high80 : Int
  bits : Nat → Int × Int

/-- A `DhtEnv` in which every handshake phase succeeds, leaving only
the bit stream to determine the outcome. -/
def DhtEnv.allOk (bits : Nat → Int × Int) : DhtEnv :=
  { setup_out_ok := true, output_low_ok := true, output_high_ok := true
    setup_in_ok := true, wait_start := 80, wait_low80 := 80, wait_high80 := 80
    bits := bits }

/-- Function `temperature_sensor_read` (`temperature_sensor.h` lines 94-152) as
a function of the observed line behaviour and the caller's two
variables; it returns the result code together with the final values
of those variables (the code writes through the out-pointers only on
the success path, after the checksum has been verified). -/
def temperature_sensor_read (env : DhtEnv) (temperature humidity : Int) :
    Int × Int × Int :=
  if !env.setup_out_ok then (-1, temperature, humidity)
  else if !env.output_low_ok then (-1, temperature, humidity)
  else if !env.output_high_ok then (-1, temperature, humidity)
  else if !env.setup_in_ok then (-1, temperature, humidity)
  else if env.wait_start < 0 then (-1, temperature, humidity)
  else if env.wait_low80 < 0 then (-1, temperature, humidity)
  else if env.wait_high80 < 0 then (-1, temperature, humidity)
  else
    match dht_read_bits env.bits with
    | none => (-1, temperature, humidity)
    | some d =>
      if (d 0 + d 1 + d 2 + d 3) % 256 ≠ d 4 then (-1, temperature, humidity)
      else (0, d 2, d 0)

/-! ## Ultrasonic pulse-echo decoder (`sensors/ultrasonic_sensor.h`) -/

/-- Constant `SPEED_OF_SOUND_CM_PER_US 0.0343`, modelled exactly as a rational. -/
def SPEED_OF_SOUND_CM_PER_US : ℚ := 343 / 10000

/-- Constant `EDGE_TIMEOUT_MS 50.0`, in microseconds: each edge wait is bounded
by 50ms, so a completed echo pulse lasts at most 50000µs. -/
def EDGE_TIMEOUT_US : ℚ := 50000

/-- The distance computation of `ultrasonic_sensor_read` (lines
112-114): `distance = pulse_duration_us * SPEED_OF_SOUND_CM_PER_US / 2`
truncated into `uint16_t`.  Real arithmetic is modelled exactly over
`ℚ`; the cast to `uint16_t` truncates toward zero (floor, for the
non-negative durations a completed echo yields) modulo `2^16`. -/
def ultrasonic_distance (pulse_duration_us : ℚ) : Nat :=
  (⌊pulse_duration_us * SPEED_OF_SOUND_CM_PER_US / 2⌋).toNat % 65536

/-- Function `ultrasonic_sensor_read` (lines 91-117) over the observed echo
behaviour: the rising- and falling-edge timestamps in µs when the
corresponding `wait_for_gpio_state` completes within its timeout,
`none` when it times out.  Either timeout aborts the read; otherwise
the decoded distance is surfaced. -/
def ultrasonic_sensor_read (rise fall : Option ℚ) : Option Nat :=
  match rise with
  | none => none
  | some rise_t =>
    match fall with
    | none => none
    | some fall_t => some (ultrasonic_distance (fall_t - rise_t))

/-! ## Observation helpers and concrete scenario inputs -/

/-- The temperature-category alerts of a tick's alert list. -/
def tempAlertsOf (l : List AlertEvent) : List AlertEvent :=
  l.filter (fun a =>
    a.alert_type == ALERT_TYPE_TEMP_HIGH || a.alert_type == ALERT_TYPE_TEMP_LOW)

/-- The gas-category alerts of a tick's alert list. -/
def gasAlertsOf (l : List AlertEvent) : List AlertEvent :=
  l.filter (fun a => a.alert_type == ALERT_TYPE_GAS_DETECTED)

/-- The motion-category alerts of a tick's alert list. -/
def motionAlertsOf (l : List AlertEvent) : List AlertEvent :=
  l.filter (fun a => a.alert_type == ALERT_TYPE_MOTION)

/-- The door-category alerts of a tick's alert list. -/
def doorAlertsOf (l : List AlertEvent) : List AlertEvent :=
  l.filter (fun a =>
    a.alert_type == ALERT_TYPE_DOOR_CLOSED || a.alert_type == ALERT_TYPE_DOOR_OPEN)

/-- Producer writes for one cycle of the end-to-end scenario of the
spec (section 8): temperature 32°C valid, gas clean valid, motion none
valid, ultrasonic valid with the given distance (door state derived
from `thresholds.door_closed_dist_cm`). -/
def e2e_update (dist : Nat) : shared_sensor_data_t → shared_sensor_data_t :=
  fun s => ultrasonic_producer_step thresholds (some dist)
    (motion_producer_step (some false)
      (gas_producer_step (some false)
        (temperature_producer_step (some (32, 50)) s)))

/-- The three aggregator ticks of the end-to-end scenario, run from the
zero-initialised shared state: door open (15cm), open (15cm), closed
(8cm). -/
def e2e_run : List sensor_data_msg_t × List (List AlertEvent) :=
  aggregator_run thresholds [e2e_update 15, e2e_update 15, e2e_update 8]
    g_sensor_data_init 0 alert_latches_init

/-- A 40-bit stream whose five decoded bytes are `0,0,0,0,1`: the
checksum byte deliberately disagrees with `sum(first 4 bytes) mod 256`.
Every bit wait completes (non-negative measured durations). -/
def dht_bad_checksum_bits : Nat → Int × Int :=
  fun i => (0, if i = 39 then 70 else 28)

/-- A line environment whose very first GPIO operation (the
`rpi_gpio_setup(pin, GPIO_OUT)` of the start signal) fails. -/
def dht_env_fail : DhtEnv :=
  { setup_out_ok := false, output_low_ok := true, output_high_ok := true
    setup_in_ok := true, wait_start := 80, wait_low80 := 80, wait_high80 := 80
    bits := fun _ => (0, 0) }

/-- The outputs of one alert evaluation that do not merely carry the
input snapshot's sensor fields along: the alerts sent, the overall
alert level written back into the shared state, and the updated
latches. -/
def check_observables (cfg : threshold_config_t)
    (data : shared_sensor_data_t) (latch : alert_latches_t) :
    List AlertEvent × Nat × alert_latches_t :=
  let (alerts, data2, latch2) := check_thresholds_and_alert cfg data latch
  (alerts, data2.alert_level, latch2)

/-! ## Theorems -/

/-- C6: for echo pulse durations `d1 < d2`, each completing within the
50ms per-edge timeout, the pulse-echo decoder's distance is monotone:
`distance(d1) ≤ distance(d2)`, with
`distance = duration * 0.0343 / 2` truncated to an unsigned 16-bit
integer. -/
theorem C6_pulse_echo_monotone (d1 d2 : ℚ) (_h0 : 0 ≤ d1) (h12 : d1 < d2)
    (ht : d2 ≤ EDGE_TIMEOUT_US) :
    ultrasonic_distance d1 ≤ ultrasonic_distance d2 := by
  unfold EDGE_TIMEOUT_US at ht
  unfold ultrasonic_distance SPEED_OF_SOUND_CM_PER_US
  have hmono : d1 * (343 / 10000) / 2 ≤ d2 * (343 / 10000) / 2 := by nlinarith
  have hf : ⌊d1 * (343 / 10000) / 2⌋ ≤ ⌊d2 * (343 / 10000) / 2⌋ :=
    Int.floor_le_floor hmono
  have hb2 : ⌊d2 * (343 / 10000) / 2⌋ ≤ 50000 := by
    calc ⌊d2 * (343 / 10000) / 2⌋ ≤ ⌊(50000 : ℚ)⌋ :=
          Int.floor_le_floor (by nlinarith)
    _ = 50000 := by norm_num
  have hb1 : ⌊d1 * (343 / 10000) / 2⌋ ≤ 50000 := le_trans hf hb2
  have t1 : (⌊d1 * (343 / 10000) / 2⌋).toNat < 65536 := by omega
  have t2 : (⌊d2 * (343 / 10000) / 2⌋).toNat < 65536 := by omega
  rw [Nat.mod_eq_of_lt t1, Nat.mod_eq_of_lt t2]
  omega

/-- Witness for C6 at the concrete durations 100µs and 200µs. -/
theorem C6_pulse_echo_monotone_witness :
    (0 : ℚ) ≤ 100 ∧ (100 : ℚ) < 200 ∧ (200 : ℚ) ≤ EDGE_TIMEOUT_US ∧
    ultrasonic_distance 100 ≤ ultrasonic_distance 200 :=
  ⟨by norm_num, by norm_num, by norm_num [EDGE_TIMEOUT_US],
   C6_pulse_echo_monotone 100 200 (by norm_num) (by norm_num)
     (by norm_num [EDGE_TIMEOUT_US])⟩

/-- C7: on an error-free bit, the single-wire bit decoder returns 1
exactly when the high phase lasted strictly more than 50µs and 0
exactly when it lasted at most 50µs; in particular a 50µs high phase
decodes to 0 and a 51µs one to 1. -/
theorem C7_bit_tiebreak (lowWait t : Int) (hl : 0 ≤ lowWait) (ht : 0 ≤ t) :
    (dht_read_bit lowWait t = 1 ↔ 50 < t) ∧
    (dht_read_bit lowWait t = 0 ↔ t ≤ 50) ∧
    dht_read_bit lowWait 50 = 0 ∧ dht_read_bit lowWait 51 = 1 := by
  unfold dht_read_bit
  split_ifs <;> simp_all <;> omega

/-- Witness for C7 at `lowWait = 40`, `t = 60`. -/
theorem C7_bit_tiebreak_witness :
    (0 : Int) ≤ 40 ∧ (0 : Int) ≤ 60 ∧
    ((dht_read_bit 40 60 = 1 ↔ (50 : Int) < 60) ∧
     (dht_read_bit 40 60 = 0 ↔ (60 : Int) ≤ 50) ∧
     dht_read_bit 40 50 = 0 ∧ dht_read_bit 40 51 = 1) :=
  ⟨by decide, by decide, C7_bit_tiebreak 40 60 (by decide) (by decide)⟩

/-- C8: a producer whose decoder fails `N ≥ 1` consecutive times ends
every one of those cycles in the state that differs from the starting
snapshot only in that sensor's validity flag (now false): the sensor's
stored value fields and every other sensor's fields are untouched, and
since the equation holds for every `N ≥ 1` the validity flag is false
after each of the `N` cycles.  Stated for all four producers. -/
theorem C8_failed_reads_frame (s : shared_sensor_data_t) (N : Nat) (hN : 1 ≤ N) :
    (temperature_producer_step none)^[N] s = { s with temp_sensor_valid := false } ∧
    (gas_producer_step none)^[N] s = { s with gas_sensor_valid := false } ∧
    (motion_producer_step none)^[N] s = { s with motion_sensor_valid := false } ∧
    ∀ cfg : threshold_config_t,
      (ultrasonic_producer_step cfg none)^[N] s = { s with ultrasonic_valid := false } := by
  obtain ⟨M, rfl⟩ : ∃ M, N = M + 1 := ⟨N - 1, by omega⟩
  refine ⟨?_, ?_, ?_, fun cfg => ?_⟩ <;>
    rw [Function.iterate_succ_apply, Function.iterate_fixed rfl] <;> rfl

/-- Witness for C8: three consecutive failures from the initial state. -/
theorem C8_failed_reads_frame_witness :
    1 ≤ 3 ∧ (temperature_producer_step none)^[3] g_sensor_data_init =
      { g_sensor_data_init with temp_sensor_valid := false } :=
  ⟨by decide, (C8_failed_reads_frame g_sensor_data_init 3 (by decide)).1⟩

/-- C10: whenever the single-wire decode fails on any error path (a
GPIO operation failing, a timeout in any handshake or bit phase, or a
checksum mismatch), `temperature_sensor_read` returns the nonzero
error code `-1` and leaves the caller's temperature and humidity
variables exactly as they were. -/
theorem C10_error_leaves_outputs (env : DhtEnv) (t h : Int)
    (herr : (temperature_sensor_read env t h).1 ≠ 0) :
    temperature_sensor_read env t h = (-1, t, h) := by
  unfold temperature_sensor_read at herr ⊢
  split_ifs at herr ⊢ <;> try rfl
  cases hdb : dht_read_bits env.bits with
  | none => simp [hdb]
  | some d =>
    simp only [hdb] at herr ⊢
    split_ifs at herr ⊢ <;> simp_all

/-- Witness for C10: the first GPIO setup fails; the caller's
variables 5 and 7 survive. -/
theorem C10_error_leaves_outputs_witness :
    (temperature_sensor_read dht_env_fail 5 7).1 ≠ 0 ∧
    temperature_sensor_read dht_env_fail 5 7 = (-1, 5, 7) :=
  ⟨by decide, C10_error_leaves_outputs dht_env_fail 5 7 (by decide)⟩

/-- When every bit wait in the index list completes (non-negative
measured durations), the fallible bit loop succeeds and assembles
exactly the bytes of the error-free fold over the decoded bit values. -/
theorem dht_read_bits_loop_ok (bits : Nat → Int × Int) :
    ∀ (l : List Nat) (d : Nat → Nat),
      (∀ i ∈ l, 0 ≤ (bits i).1 ∧ 0 ≤ (bits i).2) →
      dht_read_bits_loop bits l d = some (dht_bytes_loop (dht_bit_value bits) l d) := by
  intro l
  induction l with
  | nil => intro d _; rfl
  | cons i rest ih =>
    intro d hall
    have hi := hall i (List.mem_cons_self i rest)
    have hb : ¬ dht_read_bit (bits i).1 (bits i).2 < 0 := by
      unfold dht_read_bit; split_ifs <;> omega
    have hv : (dht_read_bit (bits i).1 (bits i).2).toNat =
        (if dht_bit_value bits i then 1 else 0) := by
      unfold dht_read_bit dht_bit_value
      split_ifs with h1 h2 h3 h4 <;> simp_all <;> omega
    unfold dht_read_bits_loop dht_bytes_loop
    rw [if_neg hb, hv]
    exact ih _ (fun j hj => hall j (List.mem_cons_of_mem i hj))

/-- With all 40 bit waits completing, `dht_read_bits` succeeds with the
five bytes assembled from the decoded bit values. -/
theorem dht_read_bits_ok (bits : Nat → Int × Int)
    (hall : ∀ i, i < 40 → 0 ≤ (bits i).1 ∧ 0 ≤ (bits i).2) :
    dht_read_bits bits = some (dht_bytes (dht_bit_value bits)) := by
  unfold dht_read_bits dht_bytes
  exact dht_read_bits_loop_ok bits (List.range 40) (fun _ => 0)
    (fun i hi => hall i (List.mem_range.mp hi))

/-- C2: for every 40-bit sequence delivered without a bit-level error,
the decode succeeds (and hence surfaces a reading) exactly when the
5th assembled byte equals the sum of the first four modulo 256; any
sequence whose 5th byte differs from that sum is rejected with the
error code `-1`, the caller's variables untouched. -/
theorem C2_checksum_gate (bits : Nat → Int × Int)
    (hall : ∀ i, i < 40 → 0 ≤ (bits i).1 ∧ 0 ≤ (bits i).2) (t h : Int) :
    ((temperature_sensor_read (DhtEnv.allOk bits) t h).1 = 0 ↔
       (dht_bytes (dht_bit_value bits) 0 + dht_bytes (dht_bit_value bits) 1 +
        dht_bytes (dht_bit_value bits) 2 + dht_bytes (dht_bit_value bits) 3) % 256 =
       dht_bytes (dht_bit_value bits) 4) ∧
    ((dht_bytes (dht_bit_value bits) 0 + dht_bytes (dht_bit_value bits) 1 +
      dht_bytes (dht_bit_value bits) 2 + dht_bytes (dht_bit_value bits) 3) % 256 ≠
       dht_bytes (dht_bit_value bits) 4 →
     temperature_sensor_read (DhtEnv.allOk bits) t h = (-1, t, h)) := by
  have hb := dht_read_bits_ok bits hall
  unfold temperature_sensor_read DhtEnv.allOk
  simp only [hb]
  norm_num
  by_cases hcs : (dht_bytes (dht_bit_value bits) 0 + dht_bytes (dht_bit_value bits) 1 +
      dht_bytes (dht_bit_value bits) 2 + dht_bytes (dht_bit_value bits) 3) % 256 =
      dht_bytes (dht_bit_value bits) 4 <;> simp [hcs]

/-- Witness for C2: a bit stream decoding to the bytes `0,0,0,0,1`
(checksum wrong) is rejected with `-1` and no write-through. -/
theorem C2_checksum_gate_witness :
    (dht_bytes (dht_bit_value dht_bad_checksum_bits) 0 +
     dht_bytes (dht_bit_value dht_bad_checksum_bits) 1 +
     dht_bytes (dht_bit_value dht_bad_checksum_bits) 2 +
     dht_bytes (dht_bit_value dht_bad_checksum_bits) 3) % 256 ≠
      dht_bytes (dht_bit_value dht_bad_checksum_bits) 4 ∧
    temperature_sensor_read (DhtEnv.allOk dht_bad_checksum_bits) 99 98 = (-1, 99, 98) :=
  ⟨by decide,
   (C2_checksum_gate dht_bad_checksum_bits (by decide) 99 98).2 (by decide)⟩

/-- C1 counterexample: in the end-to-end 3-tick scenario the outbound
snapshot messages do not carry `WARNING` on each of the three ticks —
the first tick's message carries the zero-initialised (INFO) level,
because `aggregator_thread` copies `g_sensor_data.alert_level` into
the message before calling `check_thresholds_and_alert`. -/
theorem C1_alert_level_counterexample :
    ¬ e2e_run.1.map (fun m => m.alert_level) =
        [ALERT_LEVEL_WARNING, ALERT_LEVEL_WARNING, ALERT_LEVEL_WARNING] := by
  decide

/-- C1 (amended): in the end-to-end scenario the alert stream is
tick1 {WARNING temp}, tick2 {WARNING temp}, tick3 {WARNING temp,
INFO door-closed}, with strictly increasing sequence numbers; the
outbound `alert_level`, however, reports the level computed on the
previous tick (the message is filled before the evaluation runs), so
it is INFO on tick 1 and WARNING on ticks 2 and 3. -/
theorem C1_end_to_end :
    e2e_run.2 =
      [[⟨ALERT_TYPE_TEMP_HIGH, ALERT_LEVEL_WARNING, 32, "Temperature above threshold"⟩],
       [⟨ALERT_TYPE_TEMP_HIGH, ALERT_LEVEL_WARNING, 32, "Temperature above threshold"⟩],
       [⟨ALERT_TYPE_TEMP_HIGH, ALERT_LEVEL_WARNING, 32, "Temperature above threshold"⟩,
        ⟨ALERT_TYPE_DOOR_CLOSED, ALERT_LEVEL_INFO, 8, "Door closed"⟩]] ∧
    e2e_run.1.map (fun m => m.alert_level) =
      [ALERT_LEVEL_INFO, ALERT_LEVEL_WARNING, ALERT_LEVEL_WARNING] ∧
    e2e_run.1.map (fun m => m.sequence_num) = [0, 1, 2] := by
  decide

/-- C5 counterexample: the aggregator loop body does not release
`g_data_mutex` before running the threshold/alert evaluation — in the
code's order of operations the evaluation precedes the unlock. -/
theorem C5_eval_outside_lock_counterexample :
    ¬ aggregator_tick_trace.indexOf AggStep.lockRelease <
        aggregator_tick_trace.indexOf AggStep.alertEval := by
  decide

/-- C5 (amended): each aggregator tick acquires the lock, copies the
shared snapshot into the local message, then runs
`check_thresholds_and_alert` on the shared structure while still
holding the lock, and releases the lock only afterwards (the outbound
send does happen outside the lock); this differs from the
copy-release-evaluate order the spec describes. -/
theorem C5_eval_inside_lock :
    aggregator_tick_trace.indexOf AggStep.lockAcquire <
      aggregator_tick_trace.indexOf AggStep.snapshotCopy ∧
    aggregator_tick_trace.indexOf AggStep.snapshotCopy <
      aggregator_tick_trace.indexOf AggStep.alertEval ∧
    aggregator_tick_trace.indexOf AggStep.alertEval <
      aggregator_tick_trace.indexOf AggStep.lockRelease ∧
    aggregator_tick_trace.indexOf AggStep.lockRelease <
      aggregator_tick_trace.indexOf AggStep.sendSnapshot ∧
    aggregator_tick_trace ≠ spec_tick_trace := by
  decide

/-- C4: with a valid temperature reading, the tick's temperature
alerts are exactly one WARNING "above threshold" alert when the value
is strictly above the high threshold, exactly one WARNING "below
threshold" alert when strictly below the low threshold, and none
otherwise — independent of the latched state, hence re-fired on every
tick while the condition holds. -/
theorem C4_temperature_level_triggered (cfg : threshold_config_t)
    (data : shared_sensor_data_t) (latch : alert_latches_t)
    (hv : data.temp_sensor_valid = true) :
    tempAlertsOf (check_thresholds_and_alert cfg data latch).1 =
      (if data.temperature > cfg.temp_high_threshold then
        [⟨ALERT_TYPE_TEMP_HIGH, ALERT_LEVEL_WARNING, data.temperature,
           "Temperature above threshold"⟩]
       else if data.temperature < cfg.temp_low_threshold then
        [⟨ALERT_TYPE_TEMP_LOW, ALERT_LEVEL_WARNING, data.temperature,
           "Temperature below threshold"⟩]
       else []) := by
  unfold check_thresholds_and_alert tempAlertsOf
  split_ifs <;>
    simp_all [ALERT_TYPE_TEMP_HIGH, ALERT_TYPE_TEMP_LOW, ALERT_TYPE_GAS_DETECTED,
      ALERT_TYPE_MOTION, ALERT_TYPE_DOOR_CLOSED, ALERT_TYPE_DOOR_OPEN,
      List.filter_append]

/-- Witness for C4: temperature 35°C against the configured high
threshold 30°C yields exactly the WARNING above-threshold alert. -/
theorem C4_temperature_level_triggered_witness :
    (temperature_producer_step (some (35, 50)) g_sensor_data_init).temp_sensor_valid = true ∧
    tempAlertsOf (check_thresholds_and_alert thresholds
        (temperature_producer_step (some (35, 50)) g_sensor_data_init)
        alert_latches_init).1 =
      (if (temperature_producer_step (some (35, 50)) g_sensor_data_init).temperature >
          thresholds.temp_high_threshold then
        [⟨ALERT_TYPE_TEMP_HIGH, ALERT_LEVEL_WARNING,
           (temperature_producer_step (some (35, 50)) g_sensor_data_init).temperature,
           "Temperature above threshold"⟩]
       else if (temperature_producer_step (some (35, 50)) g_sensor_data_init).temperature <
          thresholds.temp_low_threshold then
        [⟨ALERT_TYPE_TEMP_LOW, ALERT_LEVEL_WARNING,
           (temperature_producer_step (some (35, 50)) g_sensor_data_init).temperature,
           "Temperature below threshold"⟩]
       else []) :=
  ⟨by decide,
   C4_temperature_level_triggered thresholds
     (temperature_producer_step (some (35, 50)) g_sensor_data_init)
     alert_latches_init (by decide)⟩

/-- With a valid ultrasonic reading, the tick's door alerts are
exactly one edge alert when the latched state changed (closed on a
rising `door_closed`, opened on a falling one) and none otherwise,
and the latch is updated to the current door state. -/
theorem check_door_step (cfg : threshold_config_t)
    (data : shared_sensor_data_t) (latch : alert_latches_t)
    (hv : data.ultrasonic_valid = true) :
    doorAlertsOf (check_thresholds_and_alert cfg data latch).1 =
      (if data.door_closed && !latch.last_door_state then
        [⟨ALERT_TYPE_DOOR_CLOSED, ALERT_LEVEL_INFO, (data.distance_cm : Int),
           "Door closed"⟩]
       else if !data.door_closed && latch.last_door_state then
        [⟨ALERT_TYPE_DOOR_OPEN, ALERT_LEVEL_INFO, (data.distance_cm : Int),
           "Door opened"⟩]
       else []) ∧
    (check_thresholds_and_alert cfg data latch).2.2.last_door_state = data.door_closed := by
  unfold check_thresholds_and_alert doorAlertsOf
  split_ifs <;>
    simp_all [ALERT_TYPE_TEMP_HIGH, ALERT_TYPE_TEMP_LOW, ALERT_TYPE_GAS_DETECTED,
      ALERT_TYPE_MOTION, ALERT_TYPE_DOOR_CLOSED, ALERT_TYPE_DOOR_OPEN,
      List.filter_append]

/-- C3: with a valid ultrasonic reading, exactly one door alert is
produced on the tick where the door state differs from the previously
latched state (a "door closed" alert on an open-to-closed transition,
a "door opened" alert on the converse), the latch is updated to the
observed state, and a following tick with the unchanged door state
produces zero door alerts. -/
theorem C3_door_edge_triggered (cfg : threshold_config_t)
    (data : shared_sensor_data_t) (latch : alert_latches_t)
    (hv : data.ultrasonic_valid = true) :
    doorAlertsOf (check_thresholds_and_alert cfg data latch).1 =
      (if data.door_closed && !latch.last_door_state then
        [⟨ALERT_TYPE_DOOR_CLOSED, ALERT_LEVEL_INFO, (data.distance_cm : Int),
           "Door closed"⟩]
       else if !data.door_closed && latch.last_door_state then
        [⟨ALERT_TYPE_DOOR_OPEN, ALERT_LEVEL_INFO, (data.distance_cm : Int),
           "Door opened"⟩]
       else []) ∧
    (check_thresholds_and_alert cfg data latch).2.2.last_door_state = data.door_closed ∧
    doorAlertsOf (check_thresholds_and_alert cfg data
        (check_thresholds_and_alert cfg data latch).2.2).1 = [] := by
  obtain ⟨h1, h2⟩ := check_door_step cfg data latch hv
  refine ⟨h1, h2, ?_⟩
  obtain ⟨h1b, _⟩ :=
    check_door_step cfg data (check_thresholds_and_alert cfg data latch).2.2 hv
  rw [h1b, h2]
  cases data.door_closed <;> simp

/-- Witness for C3: a valid 8cm reading (door closed, threshold 10cm)
after a latched open state produces exactly the INFO "door closed"
alert, and a second tick with the same reading produces no door alert. -/
theorem C3_door_edge_triggered_witness :
    doorAlertsOf (check_thresholds_and_alert thresholds
        (ultrasonic_producer_step thresholds (some 8) g_sensor_data_init)
        alert_latches_init).1 =
      [⟨ALERT_TYPE_DOOR_CLOSED, ALERT_LEVEL_INFO, 8, "Door closed"⟩] ∧
    doorAlertsOf (check_thresholds_and_alert thresholds
        (ultrasonic_producer_step thresholds (some 8) g_sensor_data_init)
        (check_thresholds_and_alert thresholds
          (ultrasonic_producer_step thresholds (some 8) g_sensor_data_init)
          alert_latches_init).2.2).1 = [] :=
  ⟨(C3_door_edge_triggered thresholds
      (ultrasonic_producer_step thresholds (some 8) g_sensor_data_init)
      alert_latches_init (by decide)).1.trans (by decide),
   (C3_door_edge_triggered thresholds
      (ultrasonic_producer_step thresholds (some 8) g_sensor_data_init)
      alert_latches_init (by decide)).2.2⟩

set_option maxHeartbeats 1600000 in
/-- C9: a category whose validity flag is false raises no alert of
that category on the tick, whatever its stored value fields hold (the
tick's alerts, alert level and latches are unchanged under any
replacement of those fields); and the overall alert level is the
maximum severity of the alerts actually raised, INFO by default, so an
invalid category contributes nothing to it. -/
theorem C9_invalid_is_no_opinion (cfg : threshold_config_t)
    (data : shared_sensor_data_t) (latch : alert_latches_t) :
    (data.temp_sensor_valid = false →
       tempAlertsOf (check_thresholds_and_alert cfg data latch).1 = [] ∧
       ∀ t h : Int,
         check_observables cfg { data with temperature := t, humidity := h } latch =
           check_observables cfg data latch) ∧
    (data.gas_sensor_valid = false →
       gasAlertsOf (check_thresholds_and_alert cfg data latch).1 = [] ∧
       ∀ g : Bool,
         check_observables cfg { data with gas_detected := g } latch =
           check_observables cfg data latch) ∧
    (data.motion_sensor_valid = false →
       motionAlertsOf (check_thresholds_and_alert cfg data latch).1 = [] ∧
       ∀ m : Bool,
         check_observables cfg { data with motion_detected := m } latch =
           check_observables cfg data latch) ∧
    (data.ultrasonic_valid = false →
       doorAlertsOf (check_thresholds_and_alert cfg data latch).1 = [] ∧
       ∀ (dist : Nat) (dc : Bool),
         check_observables cfg { data with distance_cm := dist, door_closed := dc } latch =
           check_observables cfg data latch) ∧
    (check_thresholds_and_alert cfg data latch).2.1.alert_level =
      ((check_thresholds_and_alert cfg data latch).1.map
        (fun a => a.alert_level)).foldr max ALERT_LEVEL_INFO := by
  refine ⟨fun hv => ⟨?_, fun t h => ?_⟩, fun hv => ⟨?_, fun g => ?_⟩,
    fun hv => ⟨?_, fun m => ?_⟩, fun hv => ⟨?_, fun dist dc => ?_⟩, ?_⟩
  · simp only [check_thresholds_and_alert, tempAlertsOf]
    split_ifs <;>
      simp_all [ALERT_TYPE_TEMP_HIGH, ALERT_TYPE_TEMP_LOW, ALERT_TYPE_GAS_DETECTED,
        ALERT_TYPE_MOTION, ALERT_TYPE_DOOR_CLOSED, ALERT_TYPE_DOOR_OPEN,
        List.filter_append]
  · simp [check_observables, check_thresholds_and_alert, hv]
  · rcases data with ⟨temp, hum, tv, gd, gv, md, mv, dcm, dcl, uv, al⟩
    rcases latch with ⟨lal, lm, ld⟩
    subst hv
    cases tv <;> cases md <;> cases mv <;> cases dcl <;> cases uv <;> cases ld <;>
      simp [check_thresholds_and_alert, gasAlertsOf, ALERT_TYPE_TEMP_HIGH,
        ALERT_TYPE_TEMP_LOW, ALERT_TYPE_GAS_DETECTED, ALERT_TYPE_MOTION,
        ALERT_TYPE_DOOR_CLOSED, ALERT_TYPE_DOOR_OPEN] <;>
      split_ifs <;> simp_all
  · simp [check_observables, check_thresholds_and_alert, hv]
  · rcases data with ⟨temp, hum, tv, gd, gv, md, mv, dcm, dcl, uv, al⟩
    rcases latch with ⟨lal, lm, ld⟩
    subst hv
    cases tv <;> cases gd <;> cases gv <;> cases dcl <;> cases uv <;> cases ld <;>
      simp [check_thresholds_and_alert, motionAlertsOf, ALERT_TYPE_TEMP_HIGH,
        ALERT_TYPE_TEMP_LOW, ALERT_TYPE_GAS_DETECTED, ALERT_TYPE_MOTION,
        ALERT_TYPE_DOOR_CLOSED, ALERT_TYPE_DOOR_OPEN] <;>
      split_ifs <;> simp_all
  · simp [check_observables, check_thresholds_and_alert, hv]
  · rcases data with ⟨temp, hum, tv, gd, gv, md, mv, dcm, dcl, uv, al⟩
    rcases latch with ⟨lal, lm, ld⟩
    subst hv
    cases tv <;> cases gd <;> cases gv <;> cases md <;> cases mv <;> cases ld <;>
      simp [check_thresholds_and_alert, doorAlertsOf, ALERT_TYPE_TEMP_HIGH,
        ALERT_TYPE_TEMP_LOW, ALERT_TYPE_GAS_DETECTED, ALERT_TYPE_MOTION,
        ALERT_TYPE_DOOR_CLOSED, ALERT_TYPE_DOOR_OPEN] <;>
      split_ifs <;> simp_all
  · simp [check_observables, check_thresholds_and_alert, hv]
  · simp only [check_thresholds_and_alert]
    split_ifs <;>
      simp_all [ALERT_LEVEL_INFO, ALERT_LEVEL_WARNING, ALERT_LEVEL_CRITICAL]

/-- Witness for C9: from the zero-initialised snapshot (temperature
flagged invalid) no temperature alert is raised. -/
theorem C9_invalid_is_no_opinion_witness :
    g_sensor_data_init.temp_sensor_valid = false ∧
    tempAlertsOf (check_thresholds_and_alert thresholds g_sensor_data_init
        alert_latches_init).1 = [] :=
  ⟨by decide,
   ((C9_invalid_is_no_opinion thresholds g_sensor_data_init alert_latches_init).1
     (by decide)).1⟩

end HomeSafety
